import Mathlib

/-!
Shallow embedding of `src/server/index.js` (maccy-clipboard-mcp).

JavaScript strings are modelled as lists of UTF-16 code units (`List Nat`),
since every regex in the source runs without the `u` flag and therefore
operates code unit by code unit.  Content maps (`item.content`) are modelled
as association lists in insertion order, matching `Object.entries`/
`Object.keys` enumeration order for string keys.
-/

namespace Maccy

/-- A JavaScript string, as its sequence of UTF-16 code units. -/
abbrev JsStr := List Nat

/-- The JavaScript values that flow through the pipeline: `undefined`/absent,
`null` (SQLite NULL), a string, a `Buffer` (SQLite BLOB), a JSON-serialized
Buffer (`\x7btype:'Buffer',data:[...]\x7d`), or an object of a shape the code
does not recognize. -/
inductive JsVal where
  | undef
  | nullv
  | str (s : JsStr)
  | buf (b : List Nat)
  | bufObj (b : List Nat)
  | exotic
  deriving DecidableEq, Repr

/-- JavaScript truthiness for the values above: `undefined`, `null` and the
empty string are falsy; every Buffer and every object is truthy. -/
def truthy : JsVal → Bool
  | JsVal.undef => false
  | .nullv => false
  | .str s => !s.isEmpty
  | .buf _ => true
  | .bufObj _ => true
  | .exotic => true

/-- `a || b` on JavaScript values. -/
def jsOr (a b : JsVal) : JsVal := if truthy a then a else b

/-- Result of JavaScript `typeof`. -/
def typeofJs : JsVal → String
  | JsVal.undef => "undefined"
  | .nullv => "object"
  | .str _ => "string"
  | .buf _ => "object"
  | .bufObj _ => "object"
  | .exotic => "object"

/-! ### sanitizeText (index.js lines 75–111)

The pipeline is, in source order:
1. `str.replace(/[\x00-\x08\x0B\x0C\x0E-\x1F\x7F]/g, '')`
2. `str.replace(/[\uD800-\uDBFF](?![\uDC00-\uDFFF])|(?<![\uD800-\uDBFF])[\uDC00-\uDFFF]/g, '�')`
3. `str.replace(/[\uD800-\uDFFF]/g, '�')`
4. `str.replace(/[￾￿]/g, '')`
5. `str.replace(/[​-‍﻿]/g, '')`
6. `Buffer.from(str, 'utf8').toString('utf8')` — a UTF-8 encode/decode round
   trip, which replaces each lone surrogate code unit with U+FFFD and
   preserves everything else (after step 3 no surrogate remains, so it is
   the identity on every reachable input).
7. `JSON.stringify(decoded)` — never throws on a string, so the `catch`
   branch returning `"[Content could not be sanitized]"` is unreachable for
   string inputs and is not modelled.
-/

/-- Code units removed by step 1 of `sanitizeText`:
`0x00–0x08, 0x0B, 0x0C, 0x0E–0x1F, 0x7F`. -/
def isStrippedCtrl (c : Nat) : Bool :=
  c ≤ 0x08 || c == 0x0B || c == 0x0C || (0x0E ≤ c && c ≤ 0x1F) || c == 0x7F

/-- High surrogate code unit (U+D800–U+DBFF). -/
def isHighSurrogate (c : Nat) : Bool := 0xD800 ≤ c && c ≤ 0xDBFF

/-- Low surrogate code unit (U+DC00–U+DFFF). -/
def isLowSurrogate (c : Nat) : Bool := 0xDC00 ≤ c && c ≤ 0xDFFF

/-- Any surrogate code unit. -/
def isSurrogate (c : Nat) : Bool := isHighSurrogate c || isLowSurrogate c

/-- The two noncharacters removed by step 4. -/
def isNoncharFFFE (c : Nat) : Bool := c == 0xFFFE || c == 0xFFFF

/-- Zero-width characters removed by step 5: U+200B–U+200D and U+FEFF. -/
def isZeroWidth (c : Nat) : Bool := (0x200B ≤ c && c ≤ 0x200D) || c == 0xFEFF

/-- Step 1: drop the control characters (including DEL 0x7F). -/
def stripCtrl (s : JsStr) : JsStr := s.filter (fun c => !isStrippedCtrl c)

/-- Step 2: replace each unpaired surrogate code unit with U+FFFD, leaving
well-formed high/low pairs alone (the lookahead/lookbehind regex). -/
def fixUnpairedSurrogates : JsStr → JsStr
  | [] => []
  | [c] => if isHighSurrogate c || isLowSurrogate c then [0xFFFD] else [c]
  | c :: d :: rest =>
    if isHighSurrogate c then
      if isLowSurrogate d then c :: d :: fixUnpairedSurrogates rest
      else 0xFFFD :: fixUnpairedSurrogates (d :: rest)
    else if isLowSurrogate c then 0xFFFD :: fixUnpairedSurrogates (d :: rest)
    else c :: fixUnpairedSurrogates (d :: rest)

/-- Step 3: replace every remaining surrogate code unit with U+FFFD.  Because
the regex has no `u` flag it hits each half of a well-formed pair separately,
so astral-plane characters (emoji) become two U+FFFD characters. -/
def replaceAllSurrogates (s : JsStr) : JsStr :=
  s.map (fun c => if isSurrogate c then 0xFFFD else c)

/-- Step 4: drop U+FFFE and U+FFFF. -/
def stripNonchars (s : JsStr) : JsStr := s.filter (fun c => !isNoncharFFFE c)

/-- Step 5: drop the zero-width characters. -/
def stripZeroWidth (s : JsStr) : JsStr := s.filter (fun c => !isZeroWidth c)

/-- Step 6: the `Buffer.from(str,'utf8').toString('utf8')` round trip.  The
WHATWG UTF-8 encoder replaces each lone surrogate with U+FFFD and maps every
well-formed pair back to itself, which coincides with the step-2 transform. -/
def utf8RoundTrip : JsStr → JsStr := fixUnpairedSurrogates

/-- `sanitizeText` applied to a (nonempty is not required) string: the full
six-step pipeline of lines 83–106. -/
def sanitizePipeline (s : JsStr) : JsStr :=
  utf8RoundTrip (stripZeroWidth (stripNonchars (replaceAllSurrogates
    (fixUnpairedSurrogates (stripCtrl s)))))

/-- `sanitizeText` on a string value: the `if (!text) return text;` guard
(line 76; the empty string is falsy) followed by the pipeline. -/
def sanitizeStr (s : JsStr) : JsStr :=
  if s.isEmpty then s else sanitizePipeline s

/-- Single-character effect of the whole sanitizer: control characters (and
0x7F), the noncharacters U+FFFE/U+FFFF and zero-width characters vanish;
every surrogate code unit becomes U+FFFD; everything else survives. -/
def sanitizeChar (c : Nat) : Option Nat :=
  if isStrippedCtrl c then none
  else if isSurrogate c then some 0xFFFD
  else if isNoncharFFFE c then none
  else if isZeroWidth c then none
  else some c

/-! ### Timestamp conversion (index.js lines 113–118 and the inverse at
lines 156–167, 420–423, 449–458) -/

/-- `convertTimestamp` (lines 113–118): a Maccy timestamp (seconds since
2001-01-01) becomes a JavaScript `Date`, modelled by its millisecond time
value: `(maccyTimestamp + 978307200) * 1000`. -/
def convertTimestamp (maccyTimestamp : Int) : Int :=
  (maccyTimestamp + 978307200) * 1000

/-- The inverse conversion used for the date filters in `searchClipboard`,
`clearHistory` and `exportHistory`: `(date.getTime() / 1000) - 978307200`. -/
def dateToMaccySeconds (dateMs : Int) : Int :=
  dateMs / 1000 - 978307200

/-! ### Strings, Buffers and the content map -/

/-- UTF-16 code units of an ASCII/BMP Lean string literal (modelling helper
for writing concrete JavaScript strings). -/
def strU (s : String) : JsStr := s.toList.map Char.toNat

/-- UTF-16 code units of a Unicode code point (one unit for the BMP, a
surrogate pair for the astral planes). -/
def codePointToUnits (cp : Nat) : List Nat :=
  if cp < 0x10000 then [cp]
  else [0xD800 + (cp - 0x10000) / 0x400, 0xDC00 + (cp - 0x10000) % 0x400]

/-- UTF-8 continuation byte. -/
def isContByte (b : Nat) : Bool := 0x80 ≤ b && b ≤ 0xBF

/-- Node's `buffer.toString('utf8')` — WHATWG UTF-8 decoding of a byte list
to UTF-16 code units, replacing each maximal invalid subpart with U+FFFD. -/
def utf8Decode : List Nat → List Nat
  | [] => []
  | b :: rest =>
    if b ≤ 0x7F then b :: utf8Decode rest
    else if b < 0xC2 then 0xFFFD :: utf8Decode rest
    else if b ≤ 0xDF then
      match rest with
      | [] => [0xFFFD]
      | b2 :: r2 =>
        if isContByte b2 then
          ((b - 0xC0) * 0x40 + (b2 - 0x80)) :: utf8Decode r2
        else 0xFFFD :: utf8Decode (b2 :: r2)
    else if b ≤ 0xEF then
      match rest with
      | [] => [0xFFFD]
      | b2 :: r2 =>
        if (if b == 0xE0 then 0xA0 else 0x80) ≤ b2 &&
            b2 ≤ (if b == 0xED then 0x9F else 0xBF) then
          match r2 with
          | [] => [0xFFFD]
          | b3 :: r3 =>
            if isContByte b3 then
              ((b - 0xE0) * 0x1000 + (b2 - 0x80) * 0x40 + (b3 - 0x80)) ::
                utf8Decode r3
            else 0xFFFD :: utf8Decode (b3 :: r3)
        else 0xFFFD :: utf8Decode (b2 :: r2)
    else if b ≤ 0xF4 then
      match rest with
      | [] => [0xFFFD]
      | b2 :: r2 =>
        if (if b == 0xF0 then 0x90 else 0x80) ≤ b2 &&
            b2 ≤ (if b == 0xF4 then 0x8F else 0xBF) then
          match r2 with
          | [] => [0xFFFD]
          | b3 :: r3 =>
            if isContByte b3 then
              match r3 with
              | [] => [0xFFFD]
              | b4 :: r4 =>
                if isContByte b4 then
                  codePointToUnits ((b - 0xF0) * 0x40000 + (b2 - 0x80) * 0x1000
                    + (b3 - 0x80) * 0x40 + (b4 - 0x80)) ++ utf8Decode r4
                else 0xFFFD :: utf8Decode (b4 :: r4)
            else 0xFFFD :: utf8Decode (b3 :: r3)
        else 0xFFFD :: utf8Decode (b2 :: r2)
    else 0xFFFD :: utf8Decode rest

/-- JavaScript `.toString()` for the values that reach it in this code base:
strings are themselves, Buffers decode as UTF-8, a JSON-serialized Buffer
object stringifies as `[object Object]`.  `null`/`undefined` would throw in
JavaScript but are always guarded by a truthiness check first. -/
def jsToStr : JsVal → JsStr
  | .str s => s
  | .buf b => utf8Decode b
  | .bufObj _ => strU "[object Object]"
  | .exotic => strU "[object Object]"
  | JsVal.undef => []
  | .nullv => []

/-- A content map: content-type tag to value, in insertion order. -/
abbrev Content := List (String × JsVal)

/-- JavaScript property read `m[k]` on the content object: the stored value,
or `undefined` when the key is absent. -/
def getProp (m : Content) (k : String) : JsVal :=
  match m.find? (fun p => p.1 == k) with
  | some p => p.2
  | none => JsVal.undef

/-- JavaScript property write `m[k] = v`: overwrite in place, or append a
new key in enumeration order. -/
def upsert (m : Content) (k : String) (v : JsVal) : Content :=
  if m.any (fun p => p.1 == k) then
    m.map (fun p => if p.1 == k then (k, v) else p)
  else m ++ [(k, v)]

/-- `s.startsWith(p)` on the underlying character lists (JavaScript
`String.prototype.startsWith` is case-sensitive). -/
def strStartsWith (s p : String) : Bool := p.toList.isPrefixOf s.toList

/-- The image content-type classification used throughout the file (lines
271–277, 364–366, 745–748, 762–764): one of the four exact tags or an
`image/` prefix. -/
def isImageType (t : String) : Bool :=
  t == "public.png" || t == "public.jpeg" || t == "public.tiff" ||
    strStartsWith t "image/" || t == "com.apple.NSImage"

/-- `sanitizeText` as called on an arbitrary value (lines 75–111): falsy
inputs are returned unchanged, everything else is coerced to a string and
run through the pipeline. -/
def sanitizeTextVal (v : JsVal) : JsVal :=
  if !truthy v then v else .str (sanitizePipeline (jsToStr v))

/-! ### Primary-text selection (Claim C3)

`copyToClipboard` (lines 384–387) and `formatClipboardItem` (lines 739–741)
select `content['public.utf8-plain-text'] || content['public.text'] ||
title`; the `csv` and `txt` branches of `exportHistory` (lines 499 and 507)
select `content['public.utf8-plain-text'] || title || ''` — without the
`public.text` fallback. -/

/-- The text selection of `copyToClipboard` and `formatClipboardItem`. -/
def textContentOf (content : Content) (title : JsVal) : JsVal :=
  jsOr (getProp content "public.utf8-plain-text")
    (jsOr (getProp content "public.text") title)

/-- The text selection of the `csv`/`txt` export branches. -/
def exportTextContent (content : Content) (title : JsVal) : JsVal :=
  jsOr (getProp content "public.utf8-plain-text") (jsOr title (.str []))

/-- Modelled from the spec: the first non-empty (truthy) candidate wins;
when every candidate is empty the last one is returned (a case the
precedence rule leaves open, fixed here to match `||`-chaining). -/
def specFirstNonEmpty : List JsVal → JsVal
  | [] => JsVal.undef
  | [c] => c
  | c :: rest => if truthy c then c else specFirstNonEmpty rest

/-! ### Normalized items and batch formatting (Claims C2, C6) -/

/-- A normalized clipboard item as assembled by the `ClipboardDB` readers:
identity and display fields plus the per-content-type map. -/
structure Item where
  id : Nat
  title : JsVal
  application : JsVal
  lastCopied : String
  copyCount : Nat
  pinned : Bool
  content : Content
  deriving DecidableEq, Repr

/-- `value?.length || 0` on a content value. -/
def jsLength : JsVal → Nat
  | .str s => s.length
  | .buf b => b.length
  | .bufObj _ => 0
  | .exotic => 0
  | JsVal.undef => 0
  | .nullv => 0

/-- The base64 alphabet. -/
def base64Char (n : Nat) : Char :=
  ("ABCDEFGHIJKLMNOPQRSTUVWXYZabcdefghijklmnopqrstuvwxyz0123456789+/".toList).getD n 'A'

/-- Standard base64 of a byte list (`buffer.toString('base64')`). -/
def toBase64 : List Nat → List Char
  | [] => []
  | [a] => [base64Char (a / 4), base64Char (a % 4 * 16), '=', '=']
  | [a, b] => [base64Char (a / 4), base64Char (a % 4 * 16 + b / 16),
      base64Char (b % 16 * 4), '=']
  | a :: b :: d :: rest =>
      base64Char (a / 4) :: base64Char (a % 4 * 16 + b / 16) ::
        base64Char (b % 16 * 4 + d / 64) :: base64Char (d % 64) ::
        toBase64 rest

/-- The base64 extraction inside the per-image `try` of
`formatClipboardItem` (lines 766–779): Buffers encode directly, strings go
through `Buffer.from(value, 'binary')` (low byte of each code unit),
JSON-serialized Buffers rehydrate; any other value throws
`Unknown value type: typeof value`. -/
def encodeImageValue : JsVal → Except String (List Char)
  | .buf b => .ok (toBase64 b)
  | .str s => .ok (toBase64 (s.map (· % 256)))
  | .bufObj b => .ok (toBase64 b)
  | v => .error ("Unknown value type: " ++ typeofJs v)

/-- The mime type attached to an image block (lines 804–808). -/
def mimeFor (t : String) : String :=
  if t == "public.png" then "image/png"
  else if t == "public.jpeg" then "image/jpeg"
  else if t == "public.tiff" then "image/tiff"
  else if t == "com.apple.NSImage" then "image/png"
  else t

/-- One MCP content block as pushed by `formatClipboardItem` and the tool
handlers.  `summary` is the text block of lines 750–756 (whose rendered
string interpolates only the carried item and the selected preview, which
it truncates to 100 code units for display); `image` is the block of lines
801–809 (data is the base64 string); `imgError` is the inline per-image
fallback of lines 810–815 (note: it carries the content type, size and
message, not the item id); `itemError` is the whole-item fallback of lines
835–838 and of the loop-level `catch` at lines 919–925. -/
inductive Block where
  | summary (item : Item) (preview : JsVal)
  | image (data : List Char) (mimeType : String)
  | imgError (contentType : String) (size : Nat) (msg : String)
  | itemError (id : Nat) (msg : String)
  deriving DecidableEq, Repr

/-- The per-image loop of `formatClipboardItem` (lines 759–818), run over
`Object.entries(item.content)`: each image-classified entry yields either an
image block or — when its value fails base64 extraction — an inline error
text block.  The `JSON.stringify({data})` validation (lines 790–799) never
throws on a base64 string and needs no branch. -/
def imageBlocks (content : Content) : List Block :=
  content.filterMap (fun p =>
    if isImageType p.1 then
      some (match encodeImageValue p.2 with
        | .ok data => Block.image data (mimeFor p.1)
        | .error msg => Block.imgError p.1 (jsLength p.2) msg)
    else none)

/-- `formatClipboardItem(item, includeImages)` (lines 727–840).  The body
never throws on a well-typed item, so the outer `catch` producing the
single `itemError` placeholder (lines 827–839) is unreachable here; the
reachable failure path is the inline per-image one inside `imageBlocks`. -/
def formatClipboardItem (item : Item) (includeImages : Bool) : List Block :=
  let preview := textContentOf item.content item.title
  let hasImages := (item.content.map Prod.fst).any isImageType
  Block.summary item preview ::
    (if includeImages && hasImages then imageBlocks item.content else [])

/-- The per-item loop of the `get_recent_items` handler (lines 916–926):
each item's blocks are appended in order; the surrounding `try`/`catch`
(which would push an `itemError` block) cannot fire because
`formatClipboardItem` is total. -/
def formatBatch (items : List Item) (includeImages : Bool) : List Block :=
  items.flatMap (fun it => formatClipboardItem it includeImages)

/-- Three-item batch scenario of the claim: items 1 and 3 are plain text,
item 2 carries a `public.png` value of a shape the encoder rejects. -/
def sampleItem1 : Item :=
  { id := 1, title := JsVal.undef, application := JsVal.str (strU "com.a"),
    lastCopied := "d1", copyCount := 1, pinned := false,
    content := [("public.utf8-plain-text", JsVal.str (strU "one"))] }

/-- The middle item whose image value raises during encoding. -/
def sampleItem2 : Item :=
  { id := 2, title := JsVal.undef, application := JsVal.str (strU "com.b"),
    lastCopied := "d2", copyCount := 1, pinned := false,
    content := [("public.png", JsVal.exotic)] }

/-- The third, well-formed item. -/
def sampleItem3 : Item :=
  { id := 3, title := JsVal.undef, application := JsVal.str (strU "com.c"),
    lastCopied := "d3", copyCount := 1, pinned := false,
    content := [("public.utf8-plain-text", JsVal.str (strU "three"))] }

/-! ### copyToClipboard (Claim C6, lines 380–398) -/

/-- `copyToClipboard(itemId)` given the looked-up item: a missing item and a
missing text selection are errors; otherwise the selected text (and only
text — the function has no image path at all) is handed to `pbcopy`. -/
def copyToClipboard (itemId : Nat) (item : Option Item) : Except String JsStr :=
  match item with
  | none => .error ("Item with ID " ++ toString itemId ++ " not found")
  | some it =>
    let textContent := textContentOf it.content it.title
    if !truthy textContent then .error "No text content found to copy"
    else .ok (jsToStr textContent)

/-- An item holding two image representations and nothing else. -/
def imageOnlyItem : Item :=
  { id := 7, title := JsVal.undef, application := JsVal.str (strU "com.d"),
    lastCopied := "d7", copyCount := 1, pinned := false,
    content := [("public.png", JsVal.buf [0x89, 0x50]),
                ("public.jpeg", JsVal.buf [0xFF, 0xD8])] }

/-! ### searchClipboard (Claim C4, lines 134–178)

Both the `useRegex` and the plain branch issue
`h.ZTITLE LIKE ? OR (c.ZTYPE = 'public.utf8-plain-text' AND c.ZVALUE LIKE ?)`
with the parameter `'%' + query + '%'`.  SQLite's default `LIKE` is
case-insensitive for the ASCII letters A–Z, `NULL` operands never match,
and `%`/`_` inside the query act as wildcards. -/

/-- SQLite `LIKE` case folding: ASCII A–Z compare equal to a–z. -/
def foldAscii (c : Nat) : Nat := if 0x41 ≤ c && c ≤ 0x5A then c + 0x20 else c

/-- SQLite `LIKE` pattern matching over UTF-16 code units: `%` (0x25)
matches any sequence, `_` (0x5F) any single character, and other characters
compare ASCII-case-insensitively. -/
def likeMatch : List Nat → List Nat → Bool
  | [], s => s.isEmpty
  | p0 :: ps, s =>
    if p0 == 0x25 then
      (List.range (s.length + 1)).any (fun n => likeMatch ps (s.drop n))
    else
      match s with
      | [] => false
      | c :: cs => (p0 == 0x5F || foldAscii p0 == foldAscii c) && likeMatch ps cs

/-- The parameter bound to both placeholders: `'%' + query + '%'`. -/
def sqlLikePattern (q : JsStr) : JsStr := 0x25 :: (q ++ [0x25])

/-- `x LIKE pattern` when `x` may be SQL `NULL` (`NULL` never matches). -/
def likeOpt (pat : JsStr) (v : Option JsStr) : Bool :=
  match v with
  | none => false
  | some s => likeMatch pat s

/-- One `ZHISTORYITEMCONTENT` row as seen by the search query. -/
structure SearchFragment where
  ztype : Option String
  zvalue : Option JsStr
  deriving DecidableEq, Repr

/-- One `ZHISTORYITEM` row with its joined content fragments. -/
structure SearchEntry where
  title : Option JsStr
  fragments : List SearchFragment
  deriving DecidableEq, Repr

/-- The `WHERE` condition of `searchClipboard` deciding whether an entry
qualifies (both the regex and the plain branch): the `LIKE` pattern matches
the title, or matches the value of a fragment whose type is exactly
`public.utf8-plain-text`. -/
def searchMatches (q : JsStr) (e : SearchEntry) : Bool :=
  likeOpt (sqlLikePattern q) e.title ||
    e.fragments.any (fun f =>
      f.ztype == some "public.utf8-plain-text" && likeOpt (sqlLikePattern q) f.zvalue)

/-- Case-sensitive substring occurrence (executable). -/
def containsSub (q s : JsStr) : Bool :=
  (List.range (s.length + 1)).any (fun n => q.isPrefixOf (s.drop n))

/-- Modelled from the spec: the pattern occurs as a case-sensitive substring
of the title or of the value of any text-classified (non-image) fragment. -/
def specSearchMatches (q : JsStr) (e : SearchEntry) : Bool :=
  (match e.title with
   | some t => containsSub q t
   | none => false) ||
    e.fragments.any (fun f =>
      (match f.ztype with | some t => !isImageType t | none => false) &&
      (match f.zvalue with | some v => containsSub q v | none => false))

/-- An entry whose only text lives in a `public.text` fragment. -/
def entryPublicText : SearchEntry :=
  ⟨none, [⟨some "public.text", some (strU "hello world")⟩]⟩

/-- An entry whose title matches only up to ASCII case. -/
def entryUpperTitle : SearchEntry := ⟨some (strU "HELLO"), []⟩

/-- A query free of the `LIKE` wildcards `%` and `_`. -/
def wildcardFree (q : JsStr) : Bool := q.all (fun c => !(c == 0x25 || c == 0x5F))

/-- `likeOpt` against the spec-side substring check on folded characters. -/
def containsOpt (q : JsStr) (v : Option JsStr) : Bool :=
  match v with
  | none => false
  | some s => containsSub (q.map foldAscii) (s.map foldAscii)

/-! ### getRecentItems (Claim C5, lines 220–305) -/

/-- One `ZHISTORYITEM` row together with its content rows (the store is
taken already filtered by application and ordered newest-first, as the SQL
`WHERE`/`ORDER BY` produce it). -/
structure RawItem where
  id : Nat
  title : JsVal
  application : JsVal
  lastCopied : String
  copyCount : Nat
  pin : Option String
  fragments : List (String × JsVal)
  deriving DecidableEq, Repr

/-- The SQL-level content filter of lines 250–253:
`ZTYPE NOT IN ('public.png','public.jpeg','public.tiff','com.apple.NSImage')
AND ZTYPE NOT LIKE 'image/%'` (SQLite `LIKE`, hence ASCII-case-insensitive
on the prefix). -/
def sqlTypeKept (t : String) : Bool :=
  !(t == "public.png" || t == "public.jpeg" || t == "public.tiff" ||
      t == "com.apple.NSImage") &&
    !likeMatch (strU "image/%") (strU t)

/-- The per-item body of the `getRecentItems` loop (lines 243–301): apply
the SQL content filter, then for each non-`NULL` value skip image types
again (JavaScript-side, case-sensitive `startsWith`), keep Buffers raw and
sanitize everything else; the item qualifies when the resulting content map
is nonempty or the title is truthy. -/
def processItem (excludeImages : Bool) (r : RawItem) : Option Item :=
  let rows := if excludeImages then r.fragments.filter (fun p => sqlTypeKept p.1)
              else r.fragments
  let content := rows.foldl (fun m p =>
    if p.2 == JsVal.nullv then m
    else if excludeImages && isImageType p.1 then m
    else match p.2 with
      | .buf b => upsert m p.1 (.buf b)
      | v => upsert m p.1 (sanitizeTextVal (.str (jsToStr v)))) []
  if !content.isEmpty || truthy r.title then
    some { id := r.id, title := r.title, application := r.application,
           lastCopied := r.lastCopied, copyCount := r.copyCount,
           pinned := r.pin.isSome, content := content }
  else none

/-- The accumulation loop with its early `break` once `results.length >=
limit` (lines 293–301). -/
def recentLoop (limit : Nat) (excl : Bool) : List RawItem → List Item → List Item
  | [], acc => acc
  | r :: rest, acc =>
    match processItem excl r with
    | none => recentLoop limit excl rest acc
    | some it =>
      if limit ≤ acc.length + 1 then acc ++ [it]
      else recentLoop limit excl rest (acc ++ [it])

/-- `getRecentItems(limit, application, excludeImages)` (lines 220–305): the
raw fetch is capped at `limit * 3` when images are excluded (line 223),
then the loop accumulates qualifying items. -/
def getRecentItems (limit : Nat) (excl : Bool) (store : List RawItem) : List Item :=
  recentLoop limit excl (store.take (if excl then limit * 3 else limit)) []

/-! ### getItemById (Claim C10, lines 338–378) -/

/-- One row of the single-item `LEFT JOIN` (content columns only; the
header columns repeat on every row and are factored into `ItemMeta`). -/
structure DbRow where
  ztype : Option String
  zvalue : JsVal
  deriving DecidableEq, Repr

/-- The header columns of the joined rows. -/
structure ItemMeta where
  id : Nat
  title : JsVal
  application : JsVal
  lastCopied : String
  copyCount : Nat
  pin : Option String
  deriving DecidableEq, Repr

/-- The per-row content assembly of `getItemById` (lines 361–375):
`if (row.ZTYPE && row.ZVALUE)`, then image-classified types keep the value
only when it is a Buffer (anything else is dropped without a trace), and
other types store `sanitizeText(row.ZVALUE?.toString() || row.ZVALUE)`. -/
def rowStep (m : Content) (row : DbRow) : Content :=
  match row.ztype with
  | none => m
  | some t =>
    if t == "" || !truthy row.zvalue then m
    else if isImageType t then
      match row.zvalue with
      | .buf b => upsert m t (.buf b)
      | _ => m
    else upsert m t (sanitizeTextVal (jsOr (.str (jsToStr row.zvalue)) row.zvalue))

/-- The content map assembled by `getItemById`. -/
def getItemByIdContent (rows : List DbRow) : Content := rows.foldl rowStep []

/-- `getItemById(id)` (lines 338–378): `null` when the join returned no
rows, otherwise the assembled item. -/
def getItemById (meta : ItemMeta) (rows : List DbRow) : Option Item :=
  if rows.isEmpty then none
  else some { id := meta.id, title := sanitizeTextVal meta.title,
              application := meta.application, lastCopied := meta.lastCopied,
              copyCount := meta.copyCount, pinned := meta.pin.isSome,
              content := getItemByIdContent rows }

/-- Sample header for the C10 witness. -/
def sampleMeta : ItemMeta :=
  ⟨12, JsVal.str (strU "T"), JsVal.str (strU "com.e"), "d12", 2, none⟩

/-- A text row accompanying the malformed image row. -/
def sampleTextRow : DbRow := ⟨some "public.utf8-plain-text", JsVal.str (strU "hi")⟩

/-! ### clearHistory and exportHistory (Claim C7, lines 412–427 and 429–524) -/

deriving instance DecidableEq for Except

/-- The externally visible side effects of one operation, in order. -/
inductive Eff where
  | dbRun
  | dbQuery
  | fsAccess
  | fsWrite
  deriving DecidableEq, Repr

/-- The confirmation error of `clearHistory` (line 414). -/
def confirmErrorMsg : String :=
  "This action requires confirmation. Set confirm=true to proceed."

/-- `clearHistory(beforeDate, confirm)` (lines 412–427): the confirmation
check precedes the single `DELETE` statement; the returned number is the
store's reported change count. -/
def clearHistory (confirm : Bool) (deleted : Nat) : List Eff × Except String Nat :=
  if !confirm then ([], Except.error confirmErrorMsg)
  else ([Eff.dbRun], Except.ok deleted)

/-- JavaScript `toLowerCase` restricted to ASCII (format names are ASCII). -/
def jsToLowerCase (s : String) : String :=
  String.mk (s.toList.map (fun c =>
    if 'A' ≤ c && c ≤ 'Z' then Char.ofNat (c.toNat + 32) else c))

/-- `exportHistory(filePath, format, dateRange)` (lines 429–524), as its
ordered effect trace plus outcome: first `fs.access` on the directory
(lines 434–438), then the `SELECT` (line 462), and only then the
`format.toLowerCase()` switch (lines 492–513) that rejects unsupported
formats; a supported format ends in the file write (line 516). -/
def exportHistory (dir : String) (dirExists : Bool) (format : String)
    (items : List Item) : List Eff × Except String Nat :=
  if !dirExists then
    ([Eff.fsAccess], Except.error ("Directory does not exist: " ++ dir))
  else
    let fmt := jsToLowerCase format
    if fmt == "json" || fmt == "csv" || fmt == "txt" then
      ([Eff.fsAccess, Eff.dbQuery, Eff.fsWrite], Except.ok items.length)
    else
      ([Eff.fsAccess, Eff.dbQuery],
        Except.error ("Unsupported format: " ++ format ++
          ". Supported formats: json, csv, txt"))

/-! ## Theorems -/

/-! #### Characterization of the sanitizer -/

theorem replaceAll_fixUnpaired (s : JsStr) :
    replaceAllSurrogates (fixUnpairedSurrogates s) = replaceAllSurrogates s := by
  induction s using fixUnpairedSurrogates.induct <;>
    simp_all [fixUnpairedSurrogates, replaceAllSurrogates, isSurrogate]

theorem fixUnpaired_id_of_noSurrogate (s : JsStr)
    (h : ∀ c ∈ s, isSurrogate c = false) : fixUnpairedSurrogates s = s := by
  induction s using fixUnpairedSurrogates.induct <;>
    simp_all [fixUnpairedSurrogates, isSurrogate]

theorem surrogate_not_elsewhere (c : Nat) (h : isSurrogate c = true) :
    isStrippedCtrl c = false ∧ isNoncharFFFE c = false ∧ isZeroWidth c = false := by
  simp [isSurrogate, isHighSurrogate, isLowSurrogate] at h
  simp [isStrippedCtrl, isNoncharFFFE, isZeroWidth]
  omega

theorem fffd_benign :
    isSurrogate 0xFFFD = false ∧ isNoncharFFFE 0xFFFD = false ∧
    isZeroWidth 0xFFFD = false ∧ isStrippedCtrl 0xFFFD = false := by decide

/-- The composed steps 1–5 equal a single character-wise pass. -/
theorem steps_eq_filterMap (s : JsStr) :
    stripZeroWidth (stripNonchars (replaceAllSurrogates (stripCtrl s)))
      = s.filterMap sanitizeChar := by
  induction s with
  | nil => rfl
  | cons c rest ih =>
      by_cases h1 : isStrippedCtrl c = true
      · simp [stripCtrl, List.filter_cons, h1, List.filterMap_cons, sanitizeChar] at ih ⊢
        exact ih
      · rw [Bool.not_eq_true] at h1
        by_cases h2 : isSurrogate c = true
        · simp [stripCtrl, List.filter_cons, h1, replaceAllSurrogates, stripNonchars,
            stripZeroWidth, h2, fffd_benign.1, fffd_benign.2.1, fffd_benign.2.2.1,
            List.filterMap_cons, sanitizeChar] at ih ⊢
          exact ih
        · rw [Bool.not_eq_true] at h2
          by_cases h3 : isNoncharFFFE c = true
          · simp [stripCtrl, List.filter_cons, h1, replaceAllSurrogates, stripNonchars,
              stripZeroWidth, h2, h3, List.filterMap_cons, sanitizeChar] at ih ⊢
            exact ih
          · rw [Bool.not_eq_true] at h3
            by_cases h4 : isZeroWidth c = true
            · simp [stripCtrl, List.filter_cons, h1, replaceAllSurrogates, stripNonchars,
                stripZeroWidth, h2, h3, h4, List.filterMap_cons, sanitizeChar] at ih ⊢
              exact ih
            · rw [Bool.not_eq_true] at h4
              simp [stripCtrl, List.filter_cons, h1, replaceAllSurrogates, stripNonchars,
                stripZeroWidth, h2, h3, h4, List.filterMap_cons, sanitizeChar] at ih ⊢
              exact ih

theorem noSurrogate_after_steps (s : JsStr) :
    ∀ c ∈ stripZeroWidth (stripNonchars (replaceAllSurrogates (stripCtrl s))),
      isSurrogate c = false := by
  intro c hc
  rw [steps_eq_filterMap] at hc
  rcases List.mem_filterMap.mp hc with ⟨a, _, ha⟩
  unfold sanitizeChar at ha
  split at ha
  · exact absurd ha (by simp)
  · split at ha
    · cases ha; exact fffd_benign.1
    · split at ha
      · exact absurd ha (by simp)
      · split at ha
        · exact absurd ha (by simp)
        · cases ha; simpa using ‹¬ isSurrogate c = true›

/-- Full characterization of the sanitizer: a single character-wise pass. -/
theorem sanitizeStr_eq_filterMap (s : JsStr) :
    sanitizeStr s = s.filterMap sanitizeChar := by
  unfold sanitizeStr
  split
  · next h => simp [List.isEmpty_iff] at h; simp [h]
  · unfold sanitizePipeline utf8RoundTrip
    rw [replaceAll_fixUnpaired]
    rw [fixUnpaired_id_of_noSurrogate _ (noSurrogate_after_steps s)]
    exact steps_eq_filterMap s

/-- Claim C1 (counterexample): the sanitizer does not preserve every
character outside `0x00–0x08, 0x0B, 0x0C, 0x0E–0x1F` — it deletes DEL
(0x7F) and corrupts a well-formed emoji surrogate pair (U+D83D U+DE00,
i.e. 😀) into two replacement characters. -/
theorem C1_counterexample :
    sanitizeStr [0x7F] ≠ [0x7F] ∧
      sanitizeStr [0xD83D, 0xDE00] ≠ [0xD83D, 0xDE00] := by decide

/-- Claim C1 (amended): sanitization is the character-wise pass that removes
exactly `0x00–0x08, 0x0B, 0x0C, 0x0E–0x1F` and additionally 0x7F, the
noncharacters U+FFFE/U+FFFF and the zero-width characters U+200B–U+200D and
U+FEFF, replaces every UTF-16 surrogate code unit (including the halves of a
well-formed pair, so emoji are corrupted) with U+FFFD, and preserves every
other code unit — in particular tab, newline, carriage return and BMP
combining marks — unchanged. -/
theorem C1_amended_sanitize_charwise (s : JsStr) :
    sanitizeStr s = s.filterMap sanitizeChar := sanitizeStr_eq_filterMap s

/-- Characters surviving one sanitization pass are fixed by a second pass. -/
theorem sanitizeChar_bind (c : Nat) :
    (sanitizeChar c).bind sanitizeChar = sanitizeChar c := by
  by_cases h1 : isStrippedCtrl c = true
  · simp [sanitizeChar, h1]
  · by_cases h2 : isSurrogate c = true
    · simp only [sanitizeChar, h1, h2]
      simp only [if_false, if_true, Option.some_bind]
      decide
    · by_cases h3 : isNoncharFFFE c = true
      · simp [sanitizeChar, h1, h2, h3]
      · by_cases h4 : isZeroWidth c = true
        · simp [sanitizeChar, h1, h2, h3, h4]
        · simp [sanitizeChar, h1, h2, h3, h4]

/-- Claim C8: sanitization is idempotent — sanitizing an already-sanitized
string is a no-op. -/
theorem C8_sanitize_idempotent (s : JsStr) :
    sanitizeStr (sanitizeStr s) = sanitizeStr s := by
  rw [sanitizeStr_eq_filterMap s, sanitizeStr_eq_filterMap,
    List.filterMap_filterMap]
  rw [funext sanitizeChar_bind]

/-- Claim C9: converting a Maccy-epoch timestamp to a standard-epoch `Date`
by the fixed 978,307,200-second offset and converting back recovers the
timestamp exactly. -/
theorem C9_timestamp_roundtrip (t : Int) :
    dateToMaccySeconds (convertTimestamp t) = t := by
  unfold dateToMaccySeconds convertTimestamp
  rw [Int.mul_ediv_cancel _ (by norm_num)]
  ring

/-- Claim C3 (counterexample): for an item whose only text is a
`public.text` fragment, the export selection does not follow the claimed
`public.utf8-plain-text` > `public.text` > `title` precedence — it skips
`public.text` and exports the empty string. -/
theorem C3_counterexample :
    exportTextContent [("public.text", JsVal.str (strU "foo"))] JsVal.undef ≠
      specFirstNonEmpty
        [getProp [("public.text", JsVal.str (strU "foo"))] "public.utf8-plain-text",
         getProp [("public.text", JsVal.str (strU "foo"))] "public.text",
         JsVal.undef] := by decide

/-- Claim C3 (amended): search summaries and `copy_to_clipboard` select the
primary text by the precedence `public.utf8-plain-text` > `public.text` >
`title`, first non-empty winning; the `csv`/`txt` export instead selects by
`public.utf8-plain-text` > `title` > `""`, never consulting `public.text`. -/
theorem C3_amended_precedence (content : Content) (title : JsVal) :
    textContentOf content title =
      specFirstNonEmpty [getProp content "public.utf8-plain-text",
        getProp content "public.text", title] ∧
    exportTextContent content title =
      specFirstNonEmpty [getProp content "public.utf8-plain-text",
        title, JsVal.str []] := by
  constructor <;>
    simp only [textContentOf, exportTextContent, jsOr, specFirstNonEmpty]

/-- Claim C2 (counterexample): when an item's content value raises during
image encoding, the item's output is not a single diagnostic placeholder —
it is its normal summary block followed by an inline image-error block (two
blocks), and that error block does not carry the item's id. -/
theorem C2_counterexample :
    (formatClipboardItem sampleItem2 true).length ≠ 1 := by decide

/-- Claim C2 (amended): an error raised while encoding one item's content
value is isolated to an inline error block: the batch output is the ordered
concatenation of one nonempty block group per input item, the affected item
contributes its normal summary block followed by one inline error block per
failing fragment (carrying the content type and the error message, but not
the item id), every other item is fully formatted, and the batch call is a
total function (it never raises).  The single id-carrying placeholder of the
outer `catch` appears only when an error escapes the whole per-item
formatter, which no content value can cause. -/
theorem C2_amended_batch_isolation :
    formatBatch [sampleItem1, sampleItem2, sampleItem3] true =
      [Block.summary sampleItem1 (JsVal.str (strU "one")),
       Block.summary sampleItem2 JsVal.undef,
       Block.imgError "public.png" 0 "Unknown value type: object",
       Block.summary sampleItem3 (JsVal.str (strU "three"))] ∧
    (∀ (items : List Item) (inc : Bool),
      formatBatch items inc = items.flatMap (fun it => formatClipboardItem it inc)) ∧
    (∀ (it : Item) (inc : Bool),
      (formatClipboardItem it inc).head? =
        some (Block.summary it (textContentOf it.content it.title))) := by
  refine ⟨by decide, fun items inc => rfl, fun it inc => rfl⟩

/-- Claim C6 (code bug): `copyToClipboard` never selects an image
representation — on an item whose content map holds `public.png` and
`public.jpeg` buffers it throws `No text content found to copy` instead of
handing off the PNG bytes, although the README documents that image content
can be copied back to the clipboard. -/
theorem C6_code_bug_no_image_copy :
    copyToClipboard 7 (some imageOnlyItem) =
      Except.error "No text content found to copy" := by rfl

/-- Claim C4 (counterexample): the code's match condition is not the claimed
one — a `public.text` fragment containing the pattern does not qualify the
entry (only `public.utf8-plain-text` fragments are searched), and an
ASCII-case-differing title does qualify it (SQLite `LIKE` is
case-insensitive for ASCII), in both directions contradicting the claimed
"case-sensitive substring of title or any text-classified fragment". -/
theorem C4_counterexample :
    (specSearchMatches (strU "hello") entryPublicText = true ∧
      searchMatches (strU "hello") entryPublicText = false) ∧
    (searchMatches (strU "hello") entryUpperTitle = true ∧
      specSearchMatches (strU "hello") entryUpperTitle = false) := by decide

theorem likeMatch_literal (q : JsStr) (hq : ∀ c ∈ q, c ≠ 0x25 ∧ c ≠ 0x5F)
    (s : JsStr) :
    likeMatch (q ++ [0x25]) s = (q.map foldAscii).isPrefixOf (s.map foldAscii) := by
  induction q generalizing s with
  | nil =>
      simp only [List.nil_append, List.map_nil]
      have h : likeMatch [0x25] s = true := by
        simp only [likeMatch]
        rw [if_pos (by decide)]
        refine List.any_eq_true.mpr ⟨s.length, ?_, ?_⟩
        · simp
        · simp [likeMatch]
      simp [h]
  | cons p0 q ih =>
      have hp := hq p0 (List.mem_cons_self ..)
      have hp25 : (p0 == 0x25) = false := beq_eq_false_iff_ne.mpr hp.1
      have hp5F : (p0 == 0x5F) = false := beq_eq_false_iff_ne.mpr hp.2
      have ih' := ih (fun c hc => hq c (List.mem_cons_of_mem _ hc))
      cases s with
      | nil =>
          simp only [List.cons_append, likeMatch]
          rw [if_neg (by simp [hp25])]
          simp [List.isPrefixOf]
      | cons c cs =>
          simp only [List.cons_append, likeMatch]
          rw [if_neg (by simp [hp25])]
          simp only [List.map_cons, List.isPrefixOf, hp5F, Bool.false_or,
            List.append_eq, ih']

theorem likeMatch_contains (q s : JsStr) (hq : ∀ c ∈ q, c ≠ 0x25 ∧ c ≠ 0x5F) :
    likeMatch (sqlLikePattern q) s =
      containsSub (q.map foldAscii) (s.map foldAscii) := by
  unfold sqlLikePattern containsSub
  simp only [likeMatch]
  rw [if_pos (by decide)]
  simp only [likeMatch_literal q hq, List.map_drop, List.length_map]

theorem likeOpt_eq_containsOpt (q : JsStr)
    (hq : ∀ c ∈ q, c ≠ 0x25 ∧ c ≠ 0x5F) (v : Option JsStr) :
    likeOpt (sqlLikePattern q) v = containsOpt q v := by
  cases v with
  | none => rfl
  | some s => simp [likeOpt, containsOpt, likeMatch_contains _ _ hq]

/-- Claim C4 (amended): for a query without the `LIKE` wildcards `%`/`_`,
an entry qualifies if and only if the query occurs as an
ASCII-case-insensitive substring of the entry's title or of the value of a
fragment whose type is exactly `public.utf8-plain-text`; fragments of other
text types (e.g. `public.text`) are never searched, `NULL` titles and
values never match, and neither branch interprets the query as a regex. -/
theorem C4_amended_search_semantics (q : JsStr) (e : SearchEntry)
    (hq : wildcardFree q = true) :
    searchMatches q e =
      (containsOpt q e.title ||
        e.fragments.any (fun f =>
          f.ztype == some "public.utf8-plain-text" && containsOpt q f.zvalue)) := by
  have hq' : ∀ c ∈ q, c ≠ 0x25 ∧ c ≠ 0x5F := by
    intro c hc
    have h := List.all_eq_true.mp hq c hc
    simp only [Bool.not_eq_true', Bool.or_eq_false_iff, beq_eq_false_iff_ne] at h
    exact h
  unfold searchMatches
  simp only [likeOpt_eq_containsOpt q hq']

/-- Claim C4 (witness): the amended characterization evaluated on the
uppercase-title entry with wildcard-free query `hello`. -/
theorem C4_amended_witness :
    wildcardFree (strU "hello") = true ∧
    searchMatches (strU "hello") entryUpperTitle =
      (containsOpt (strU "hello") entryUpperTitle.title ||
        entryUpperTitle.fragments.any (fun f =>
          f.ztype == some "public.utf8-plain-text" &&
            containsOpt (strU "hello") f.zvalue)) :=
  ⟨by decide, C4_amended_search_semantics (strU "hello") entryUpperTitle (by decide)⟩

theorem recentLoop_eq (limit : Nat) (excl : Bool) :
    ∀ (l : List RawItem) (acc : List Item), acc.length < limit →
      recentLoop limit excl l acc =
        acc ++ (l.filterMap (processItem excl)).take (limit - acc.length) := by
  intro l
  induction l with
  | nil => intro acc _; simp [recentLoop]
  | cons r rest ih =>
      intro acc h
      simp only [recentLoop, List.filterMap_cons]
      cases hp : processItem excl r with
      | none => simp [ih acc h]
      | some it =>
          by_cases hlim : limit ≤ acc.length + 1
          · have h1 : limit - acc.length = 1 := by omega
            simp [hlim, h1]
          · have h2 : (acc ++ [it]).length < limit := by
              simp only [List.length_append, List.length_cons, List.length_nil]
              omega
            have h3 : limit - acc.length = (limit - (acc.length + 1)) + 1 := by
              omega
            simp [hlim, ih _ h2, h3, List.length_append]

/-- Claim C5: with `excludeImages = true` and limit `n`, at most `3 * n` raw
entries are fetched from the store, the result holds at most `n` qualifying
entries, and accumulation stops as soon as `n` qualifying entries are
collected — the result is exactly the first `n` qualifying entries among
the `3 * n` fetched ones. -/
theorem C5_overfetch_and_early_stop (limit : Nat) (store : List RawItem) :
    getRecentItems limit true store =
      ((store.take (limit * 3)).filterMap (processItem true)).take limit ∧
    (getRecentItems limit true store).length ≤ limit ∧
    (store.take (limit * 3)).length ≤ limit * 3 := by
  have hmain : getRecentItems limit true store =
      ((store.take (limit * 3)).filterMap (processItem true)).take limit := by
    cases Nat.eq_zero_or_pos limit with
    | inl h0 => subst h0; simp [getRecentItems, recentLoop]
    | inr hpos =>
        unfold getRecentItems
        rw [if_pos rfl, recentLoop_eq limit true _ [] (by simpa using hpos)]
        simp
  exact ⟨hmain, by rw [hmain]; exact List.length_take_le .., List.length_take_le ..⟩

/-- Claim C10: in a single-item lookup, an image-classified fragment whose
value is not a binary Buffer is silently omitted — the assembled content map
is as if the fragment were absent (it is neither sanitized as text nor
included in any form) — and the lookup still returns the item. -/
theorem C10_image_nonbuffer_omitted (pre post : List DbRow) (t : String)
    (v : JsVal) (meta : ItemMeta)
    (himg : isImageType t = true) (hv : ∀ b, v ≠ JsVal.buf b) :
    getItemByIdContent (pre ++ ⟨some t, v⟩ :: post) =
      getItemByIdContent (pre ++ post) ∧
    getItemById meta (pre ++ ⟨some t, v⟩ :: post) ≠ none := by
  have hstep : ∀ m, rowStep m ⟨some t, v⟩ = m := by
    intro m
    cases v with
    | buf b => exact absurd rfl (hv b)
    | undef => simp [rowStep, himg]
    | nullv => simp [rowStep, himg]
    | str s => simp [rowStep, himg]
    | bufObj b => simp [rowStep, himg]
    | exotic => simp [rowStep, himg]
  refine ⟨?_, ?_⟩
  · unfold getItemByIdContent
    rw [List.foldl_append, List.foldl_cons, hstep, ← List.foldl_append]
  · simp [getItemById]

/-- Claim C10 (witness): the omission theorem evaluated on a concrete item
whose `public.png` fragment holds a string instead of a Buffer. -/
theorem C10_witness :
    isImageType "public.png" = true ∧
    (getItemByIdContent [⟨some "public.png", JsVal.str (strU "nb")⟩, sampleTextRow] =
        getItemByIdContent [sampleTextRow] ∧
      getItemById sampleMeta
        [⟨some "public.png", JsVal.str (strU "nb")⟩, sampleTextRow] ≠ none) :=
  ⟨by decide,
    C10_image_nonbuffer_omitted [] [sampleTextRow] "public.png"
      (JsVal.str (strU "nb")) sampleMeta (by decide) (fun b h => by cases h)⟩

/-- Claim C7 (counterexample): an unsupported export format is rejected
only after the directory check and the store query — the effect trace at
the failure is not empty, so the `ValidationError` is not raised before all
I/O. -/
theorem C7_counterexample :
    exportHistory "/tmp" true "xml" [] =
      ([Eff.fsAccess, Eff.dbQuery],
        Except.error "Unsupported format: xml. Supported formats: json, csv, txt") ∧
    (exportHistory "/tmp" true "xml" []).1 ≠ [] := by decide

/-- Claim C7 (amended): `clear_history` without `confirm=true` fails before
any I/O at all (empty effect trace, no deletion); `export_history` with an
unsupported format name fails before any write or mutation, but only after
the directory access and the store query. -/
theorem C7_amended_validation_order (deleted : Nat) (dir : String)
    (format : String) (items : List Item)
    (hfmt : (jsToLowerCase format == "json" || jsToLowerCase format == "csv" ||
      jsToLowerCase format == "txt") = false) :
    clearHistory false deleted = ([], Except.error confirmErrorMsg) ∧
    (exportHistory dir true format items).1 = [Eff.fsAccess, Eff.dbQuery] ∧
    Eff.fsWrite ∉ (exportHistory dir true format items).1 ∧
    Eff.dbRun ∉ (exportHistory dir true format items).1 ∧
    (exportHistory dir true format items).2 =
      Except.error ("Unsupported format: " ++ format ++
        ". Supported formats: json, csv, txt") := by
  refine ⟨rfl, ?_, ?_, ?_, ?_⟩ <;> simp [exportHistory, hfmt]

/-- Claim C7 (witness): the amended statement evaluated at format `xml`. -/
theorem C7_amended_witness :
    (jsToLowerCase "xml" == "json" || jsToLowerCase "xml" == "csv" ||
      jsToLowerCase "xml" == "txt") = false ∧
    (clearHistory false 0 = ([], Except.error confirmErrorMsg) ∧
      (exportHistory "/tmp" true "xml" []).1 = [Eff.fsAccess, Eff.dbQuery]) :=
  ⟨by decide,
    (C7_amended_validation_order 0 "/tmp" "xml" [] (by decide)).1,
    (C7_amended_validation_order 0 "/tmp" "xml" [] (by decide)).2.1⟩

end Maccy
